import Mathlib

/-!
Shallow embedding of `bin/get_genome.py` (wf-human-variation): a utility that
detects the reference genome build (hg19 / hg38 / T2T) from a tab-separated
listing of chromosome names and sizes, and checks compatibility with the
workflow (STR genotyping requires hg38).

Python dicts are modelled as association lists with Python-style insertion
(update in place, append new keys) and extensional equality (`dictEq`).
File reading is modelled over the list of lines; the possible uncaught
IndexError on `cols[1]` is modelled with `Except String`.
-/

/-- A Python dict from string to string: association list, first binding wins
for lookup; `dictInsert` mimics `d[k] = v`. -/
abbrev Dict : Type := List (String × String)

/-- Lookup in a dict (Python `d[k]` / `k in d`): first matching binding. -/
def dictFind (d : Dict) (k : String) : Option String :=
  match d with
  | [] => none
  | (k2, v) :: rest => if k = k2 then some v else dictFind rest k

/-- Python `d[k] = v`: replace the existing binding in place, else append. -/
def dictInsert (d : Dict) (k v : String) : Dict :=
  match d with
  | [] => [(k, v)]
  | (k2, v2) :: rest =>
      if k = k2 then (k, v) :: rest else (k2, v2) :: dictInsert rest k v

/-- The list of keys of a dict, in order. -/
def dictKeys (d : Dict) : List String :=
  match d with
  | [] => []
  | (k, _) :: rest => k :: dictKeys rest

/-- Python dict equality `d1 == d2`: same keys and same value at every key
(extensional equality of lookup). -/
def dictEq (d1 d2 : Dict) : Bool :=
  (dictKeys d1).all (fun k => decide (dictFind d1 k = dictFind d2 k)) &&
  (dictKeys d2).all (fun k => decide (dictFind d1 k = dictFind d2 k))

/-- Emptiness of a dict (Python `not d`). -/
def dictIsEmpty (d : Dict) : Bool :=
  match d with
  | [] => true
  | _ :: _ => false

/-- `HG38_URL` from the script. -/
def HG38_URL : String :=
  "https://ont-exd-int-s3-euwst1-epi2me-labs.s3.amazonaws.com/ref/" ++
  "GCA_000001405.15_GRCh38_no_alt_analysis_set.fna.gz"

/-- `CHROMOSOME_SIZES['hg19']`. -/
def hg19_sizes : Dict :=
  [("chr1", "249250621"), ("chr2", "243199373"), ("chr3", "198022430"),
   ("chr4", "191154276"), ("chr5", "180915260"), ("chr6", "171115067"),
   ("chr7", "159138663"), ("chr8", "146364022"), ("chr9", "141213431"),
   ("chr10", "135534747"), ("chr11", "135006516"), ("chr12", "133851895"),
   ("chr13", "115169878"), ("chr14", "107349540"), ("chr15", "102531392"),
   ("chr16", "90354753"), ("chr17", "81195210"), ("chr18", "78077248"),
   ("chr19", "59128983"), ("chr20", "63025520"), ("chr21", "48129895"),
   ("chr22", "51304566"), ("chrX", "155270560"), ("chrY", "59373566")]

/-- `CHROMOSOME_SIZES['hg38']`. -/
def hg38_sizes : Dict :=
  [("chr1", "248956422"), ("chr2", "242193529"), ("chr3", "198295559"),
   ("chr4", "190214555"), ("chr5", "181538259"), ("chr6", "170805979"),
   ("chr7", "159345973"), ("chr8", "145138636"), ("chr9", "138394717"),
   ("chr10", "133797422"), ("chr11", "135086622"), ("chr12", "133275309"),
   ("chr13", "114364328"), ("chr14", "107043718"), ("chr15", "101991189"),
   ("chr16", "90338345"), ("chr17", "83257441"), ("chr18", "80373285"),
   ("chr19", "58617616"), ("chr20", "64444167"), ("chr21", "46709983"),
   ("chr22", "50818468"), ("chrX", "156040895"), ("chrY", "57227415")]

/-- `CHROMOSOME_SIZES['T2T']`. -/
def t2t_sizes : Dict :=
  [("NC_060925.1", "248387328"), ("NC_060926.1", "242696752"),
   ("NC_060927.1", "201105948"), ("NC_060928.1", "193574945"),
   ("NC_060929.1", "182045439"), ("NC_060930.1", "172126628"),
   ("NC_060931.1", "160567428"), ("NC_060932.1", "146259331"),
   ("NC_060933.1", "150617247"), ("NC_060934.1", "134758134"),
   ("NC_060935.1", "135127769"), ("NC_060936.1", "133324548"),
   ("NC_060937.1", "113566686"), ("NC_060938.1", "101161492"),
   ("NC_060939.1", "99753195"), ("NC_060940.1", "96330374"),
   ("NC_060941.1", "84276897"), ("NC_060942.1", "80542538"),
   ("NC_060943.1", "61707364"), ("NC_060944.1", "66210255"),
   ("NC_060945.1", "45090682"), ("NC_060946.1", "51324926"),
   ("NC_060947.1", "154259566"), ("NC_060948.1", "62460029")]

/-- `CHROMOSOME_SIZES`: the top-level dict, in Python insertion order. -/
def CHROMOSOME_SIZES : List (String × Dict) :=
  [("hg19", hg19_sizes), ("hg38", hg38_sizes), ("T2T", t2t_sizes)]

/-- `ALLOWED_CHR` from the script. -/
def ALLOWED_CHR : List String :=
  ["chr1", "chr2", "chr3", "chr4", "chr5", "chr6", "chr7", "chr8", "chr9",
   "chr10", "chr11", "chr12", "chr13", "chr14", "chr15", "chr16", "chr17",
   "chr18", "chr19", "chr20", "chr21", "chr22", "chrX", "chrY",
   "NC_060925.1", "NC_060926.1", "NC_060927.1", "NC_060928.1", "NC_060929.1",
   "NC_060930.1", "NC_060931.1", "NC_060932.1", "NC_060933.1", "NC_060934.1",
   "NC_060935.1", "NC_060936.1", "NC_060937.1", "NC_060938.1", "NC_060939.1",
   "NC_060940.1", "NC_060941.1", "NC_060942.1", "NC_060943.1", "NC_060944.1",
   "NC_060945.1", "NC_060946.1", "NC_060947.1", "NC_060948.1"]

/-- The loop `for known_genome_build in CHROMOSOME_SIZES.keys(): ...` in
`get_genome`, over an explicit list of (build name, table) pairs. -/
def get_genome_loop (builds : List (String × Dict)) (sizes : Dict) : String :=
  match builds with
  | [] => ""
  | (name, tbl) :: rest =>
      if dictEq sizes tbl then name else get_genome_loop rest sizes

/-- `get_genome(sizes)`: empty dict gives "", otherwise the first build whose
table equals `sizes`, or "" when none matches. -/
def get_genome (sizes : Dict) : String :=
  if dictIsEmpty sizes then "" else get_genome_loop CHROMOSOME_SIZES sizes

/-- The generic diagnostic text preset in `check_genome` (the default value of
`extra_msg_context`). -/
def generic_msg : String :=
  "#####################################################################\n" ++
  "# INPUT DATA PROBLEM\n" ++
  "The genome build detected in the BAM is not compatible with this\n" ++
  "workflow as it does not appear to be hg19/GRCh37, hg38/GRCh38 or T2TCHM13v2.\n" ++
  "If you are trying to run this workflow with non-human data, please\n" ++
  "consult the \x27Genome compatibility and running the workflow on\n" ++
  "non-human genomes\x27 section of the README.\n" ++
  "####################################################################\n"

/-- The part of the STR diagnostic before the interpolated build name. -/
def str_msg_a : String :=
  "#####################################################################\n" ++
  "# INPUT DATA PROBLEM\n" ++
  "The genome build detected in the BAM is not compatible with this\n" ++
  "workflow.\n" ++
  "Detected genome: "

/-- The part of the STR diagnostic between the build name and the URL. -/
def str_msg_b : String :=
  ", but genotyping STRs can only be\n" ++
  "performed when aligned to build 38.\n" ++
  "To perform STR calling, you need to run the workflow providing the\n" ++
  "following reference genome to the --ref parameter:\n\n"

/-- The part of the STR diagnostic after the URL. -/
def str_msg_c : String :=
  "\n\nAlternatively, disable STR calling by setting --str false.\n" ++
  "####################################################################\n"

/-- The diagnostic built by the f-string in the STR branch of `check_genome`. -/
def str_msg (genome_build : String) : String :=
  str_msg_a ++ genome_build ++ str_msg_b ++ HG38_URL ++ str_msg_c

/-- `check_genome(genome_build, str_flag)`: returns the pair
`(bad_genome, extra_msg_context)`. -/
def check_genome (genome_build : String) (str_flag : Bool) : Bool × String :=
  if genome_build = "" then
    (true, generic_msg)
  else if str_flag = true ∧ genome_build ≠ "hg38" then
    (true, str_msg genome_build)
  else
    (false, generic_msg)

/-- Python `str.rstrip()`: drop trailing whitespace characters. -/
def rstrip (s : String) : String :=
  String.mk ((s.data.reverse.dropWhile Char.isWhitespace).reverse)

/-- Helper for `splitTab`: accumulates the current column (reversed). -/
def splitTabAux : List Char → List Char → List String
  | [], cur => [String.mk cur.reverse]
  | c :: cs, cur =>
      if c = '\t' then String.mk cur.reverse :: splitTabAux cs []
      else splitTabAux cs (c :: cur)

/-- Python `line.split('\t')`: split on every tab, keeping empty columns;
the result is always nonempty. -/
def splitTab (s : String) : List String :=
  splitTabAux s.data []

/-- Python `s.startswith(pre)` for ASCII arguments, as character-list
comparison. -/
def py_startswith (s pre : String) : Bool :=
  pre.data.isPrefixOf s.data

/-- The columns of an input line: rstrip then split on tabs (`cols` in
`chromosome_sizes`). -/
def lineCols (line : String) : List String :=
  splitTab (rstrip line)

/-- `cols[0]` of a line (always defined: `split` never returns an empty
list). -/
def firstCol (line : String) : String :=
  (lineCols line).headD ""

/-- `cols[1]` of a line, when present. -/
def secondCol (line : String) : Option String :=
  (lineCols line)[1]?

/-- The filter of `chromosome_sizes` as a predicate on a sequence name: kept
iff it is a T2T key, or starts with "NC_", or is in the allow list. -/
abbrev KeepName (c0 : String) : Prop :=
  c0 ∈ dictKeys t2t_sizes ∨ py_startswith c0 "NC_" = true ∨ c0 ∈ ALLOWED_CHR

/-- The body of the `for line in fa_idx` loop in `chromosome_sizes`, acting on
the accumulator `fasta_sizes`; `cols[1]` on a one-column line raises
IndexError, modelled as `Except.error`. -/
def chromosome_sizes_step (fasta_sizes : Dict) (line : String) :
    Except String Dict :=
  let cols := lineCols line
  let c0 := cols.headD ""
  if c0 ∈ dictKeys t2t_sizes ∨ py_startswith c0 "NC_" = true then
    match cols[1]? with
    | some c1 => .ok (dictInsert fasta_sizes c0 c1)
    | none => .error "IndexError"
  else if c0 ∈ ALLOWED_CHR then
    match cols[1]? with
    | some c1 => .ok (dictInsert fasta_sizes c0 c1)
    | none => .error "IndexError"
  else
    .ok fasta_sizes

/-- The loop of `chromosome_sizes` over the remaining lines, threading the
accumulator; an IndexError aborts the run. -/
def chromosome_sizes_aux (acc : Dict) : List String → Except String Dict
  | [] => .ok acc
  | l :: ls =>
      match chromosome_sizes_step acc l with
      | .error e => .error e
      | .ok acc2 => chromosome_sizes_aux acc2 ls

/-- `chromosome_sizes(path)`, over the list of lines of the input file:
starts from the empty dict `fasta_sizes = {}`. -/
def chromosome_sizes (lines : List String) : Except String Dict :=
  chromosome_sizes_aux [] lines

/-- `os.EX_DATAERR` (POSIX data error) on Linux. -/
def EX_DATAERR : Nat := 65

/-- Observable outcome of one run of `main`: what was written to stderr, the
exit code, and the contents of the output file when it was written. -/
structure RunResult where
  stderrOut : String
  exitCode : Nat
  fileOut : Option String
  deriving DecidableEq

/-- `main()`, over the lines of the `--chr_counts` file and the `--str` flag:
on a bad genome the diagnostic goes to stderr and the process exits with
`EX_DATAERR` without writing the output file; otherwise the build name is
written to the output file and the run ends normally (exit 0). An uncaught
IndexError from `chromosome_sizes` propagates as `Except.error`. -/
def main_run (lines : List String) (str_flag : Bool) :
    Except String RunResult :=
  match chromosome_sizes lines with
  | .error e => .error e
  | .ok all_sizes =>
      let genome_build := get_genome all_sizes
      let r := check_genome genome_build str_flag
      if r.1 then
        .ok ⟨r.2, EX_DATAERR, none⟩
      else
        .ok ⟨"", 0, some genome_build⟩

/-! ## Basic dictionary lemmas -/

/-- Lookup fails exactly on absent keys. -/
theorem dictFind_eq_none {d : Dict} {k : String} :
    dictFind d k = none ↔ k ∉ dictKeys d := by
  induction d with
  | nil => simp [dictFind, dictKeys]
  | cons p rest ih =>
      obtain ⟨k2, v⟩ := p
      by_cases hk : k = k2
      · subst hk
        simp [dictFind, dictKeys]
      · simp [dictFind, dictKeys, hk, ih]

/-- A key is present exactly when lookup succeeds. -/
theorem mem_dictKeys {d : Dict} {k : String} :
    k ∈ dictKeys d ↔ dictFind d k ≠ none := by
  rw [Ne, dictFind_eq_none, not_not]

/-- Dict equality makes lookup agree at every key (also at absent ones). -/
theorem dictEq_find {d1 d2 : Dict} (h : dictEq d1 d2 = true) (k : String) :
    dictFind d1 k = dictFind d2 k := by
  unfold dictEq at h
  rw [Bool.and_eq_true, List.all_eq_true, List.all_eq_true] at h
  obtain ⟨h1, h2⟩ := h
  by_cases hk1 : k ∈ dictKeys d1
  · exact of_decide_eq_true (h1 k hk1)
  · by_cases hk2 : k ∈ dictKeys d2
    · exact of_decide_eq_true (h2 k hk2)
    · rw [dictFind_eq_none.mpr hk1, dictFind_eq_none.mpr hk2]

/-- Lookup after insertion: the new binding at `k`, the old dict elsewhere. -/
theorem dictFind_insert (d : Dict) (k v m : String) :
    dictFind (dictInsert d k v) m = if m = k then some v else dictFind d m := by
  induction d with
  | nil => simp [dictInsert, dictFind]
  | cons p rest ih =>
      obtain ⟨k2, v2⟩ := p
      by_cases hk : k = k2
      · subst hk
        by_cases hm : m = k
        · simp [dictInsert, dictFind, hm]
        · simp [dictInsert, dictFind, hm]
      · by_cases hm : m = k2
        · subst hm
          have hmk : m ≠ k := fun h => hk h.symm
          simp [dictInsert, dictFind, hk, hmk]
        · simp [dictInsert, dictFind, hk, hm, ih]

/-- Keys after insertion. -/
theorem mem_dictKeys_insert {d : Dict} {k v m : String} :
    m ∈ dictKeys (dictInsert d k v) ↔ m = k ∨ m ∈ dictKeys d := by
  rw [mem_dictKeys, dictFind_insert]
  by_cases hm : m = k
  · simp [hm]
  · simp [hm, mem_dictKeys]

/-- A dict with a successful lookup is nonempty. -/
theorem dictIsEmpty_eq_false_of_find {d : Dict} {k v : String}
    (h : dictFind d k = some v) : dictIsEmpty d = false := by
  cases d with
  | nil => simp [dictFind] at h
  | cons p rest => rfl

/-! ## The extractor step and loop -/

/-- The two identical insert branches of the loop body merge into one guarded
by `KeepName`. -/
theorem step_eq (acc : Dict) (l : String) :
    chromosome_sizes_step acc l =
      if KeepName (firstCol l) then
        match secondCol l with
        | some c1 => .ok (dictInsert acc (firstCol l) c1)
        | none => .error "IndexError"
      else .ok acc := by
  have hdef : chromosome_sizes_step acc l =
      if firstCol l ∈ dictKeys t2t_sizes ∨
          py_startswith (firstCol l) "NC_" = true then
        match secondCol l with
        | some c1 => .ok (dictInsert acc (firstCol l) c1)
        | none => .error "IndexError"
      else if firstCol l ∈ ALLOWED_CHR then
        match secondCol l with
        | some c1 => .ok (dictInsert acc (firstCol l) c1)
        | none => .error "IndexError"
      else .ok acc := rfl
  rw [hdef]
  by_cases h1 : firstCol l ∈ dictKeys t2t_sizes <;>
    by_cases h2 : py_startswith (firstCol l) "NC_" = true <;>
      by_cases h3 : firstCol l ∈ ALLOWED_CHR <;>
        simp [KeepName, h1, h2, h3]

/-- A line whose name fails the filter leaves the accumulator unchanged. -/
theorem step_of_not_keep {acc : Dict} {l : String}
    (h : ¬ KeepName (firstCol l)) :
    chromosome_sizes_step acc l = .ok acc := by
  rw [step_eq]
  simp [h]

/-- A kept line with a second column inserts it. -/
theorem step_of_keep {acc : Dict} {l c1 : String}
    (h : KeepName (firstCol l)) (h2 : secondCol l = some c1) :
    chromosome_sizes_step acc l = .ok (dictInsert acc (firstCol l) c1) := by
  rw [step_eq, h2]
  simp [h]

/-- A kept line without a second column raises IndexError. -/
theorem step_of_keep_none {acc : Dict} {l : String}
    (h : KeepName (firstCol l)) (h2 : secondCol l = none) :
    chromosome_sizes_step acc l = .error "IndexError" := by
  rw [step_eq, h2]
  simp [h]

/-- The loop over an appended list runs the two parts in sequence. -/
theorem aux_append (xs ys : List String) (acc : Dict) :
    chromosome_sizes_aux acc (xs ++ ys) =
      match chromosome_sizes_aux acc xs with
      | .ok d => chromosome_sizes_aux d ys
      | .error e => .error e := by
  induction xs generalizing acc with
  | nil => simp [chromosome_sizes_aux]
  | cons l ls ih =>
      simp only [List.cons_append, chromosome_sizes_aux]
      cases chromosome_sizes_step acc l with
      | error e => rfl
      | ok acc2 => exact ih acc2

/-! ## Substring containment and mapping difference -/

/-- `sub` occurs contiguously inside `s`. -/
def strContains (s sub : String) : Prop :=
  ∃ a b : String, s = a ++ sub ++ b

/-- The ways a mapping can differ from a table: a missing key, an extra key,
or one key bound to a different length string. -/
def DiffersFrom (sizes tbl : Dict) : Prop :=
  (∃ k, k ∈ dictKeys tbl ∧ dictFind sizes k = none) ∨
  (∃ k, k ∈ dictKeys sizes ∧ dictFind tbl k = none) ∨
  (∃ k v w, dictFind sizes k = some v ∧ dictFind tbl k = some w ∧ v ≠ w)

/-- Any single difference refutes Python dict equality. -/
theorem dictEq_eq_false_of_differs {sizes tbl : Dict}
    (h : DiffersFrom sizes tbl) : dictEq sizes tbl = false := by
  by_contra hne
  rw [Bool.not_eq_false] at hne
  have heq := dictEq_find hne
  rcases h with ⟨k, hk, hf⟩ | ⟨k, hk, hf⟩ | ⟨k, v, w, hv, hw, hvw⟩
  · exact (mem_dictKeys.mp hk) ((heq k).symm.trans hf)
  · exact (mem_dictKeys.mp hk) ((heq k).trans hf)
  · rw [heq k, hw] at hv
    exact hvw (Option.some.inj hv).symm

/-! ## Claims about the Build Matcher -/

/-- C1: for each build B among hg19, hg38, T2T, applying `get_genome` to any
mapping exactly equal (as a Python dict) to the reference table for B returns
the string B: the three constant tables round-trip through the Matcher. -/
theorem get_genome_table_roundtrip (sizes : Dict) :
    (dictEq sizes hg19_sizes = true → get_genome sizes = "hg19") ∧
    (dictEq sizes hg38_sizes = true → get_genome sizes = "hg38") ∧
    (dictEq sizes t2t_sizes = true → get_genome sizes = "T2T") := by
  refine ⟨fun h => ?_, fun h => ?_, fun h => ?_⟩
  · have hf : dictFind sizes "chr1" = some "249250621" :=
      (dictEq_find h "chr1").trans (by decide)
    have hne := dictIsEmpty_eq_false_of_find hf
    simp [get_genome, CHROMOSOME_SIZES, get_genome_loop, hne, h]
  · have hf : dictFind sizes "chr1" = some "248956422" :=
      (dictEq_find h "chr1").trans (by decide)
    have hne := dictIsEmpty_eq_false_of_find hf
    have h19 : dictEq sizes hg19_sizes = false := by
      by_contra hc
      rw [Bool.not_eq_false] at hc
      exact absurd ((dictEq_find hc "chr1").symm.trans hf) (by decide)
    simp [get_genome, CHROMOSOME_SIZES, get_genome_loop, hne, h, h19]
  · have hf : dictFind sizes "NC_060925.1" = some "248387328" :=
      (dictEq_find h "NC_060925.1").trans (by decide)
    have hchr1 : dictFind sizes "chr1" = none :=
      (dictEq_find h "chr1").trans (by decide)
    have hne := dictIsEmpty_eq_false_of_find hf
    have h19 : dictEq sizes hg19_sizes = false := by
      by_contra hc
      rw [Bool.not_eq_false] at hc
      exact absurd ((dictEq_find hc "chr1").symm.trans hchr1) (by decide)
    have h38 : dictEq sizes hg38_sizes = false := by
      by_contra hc
      rw [Bool.not_eq_false] at hc
      exact absurd ((dictEq_find hc "chr1").symm.trans hchr1) (by decide)
    simp [get_genome, CHROMOSOME_SIZES, get_genome_loop, hne, h, h19, h38]

/-- Concrete round-trips of the three constant tables through the Matcher. -/
theorem get_genome_table_roundtrip_witness :
    get_genome hg19_sizes = "hg19" ∧ get_genome hg38_sizes = "hg38" ∧
    get_genome t2t_sizes = "T2T" :=
  ⟨(get_genome_table_roundtrip hg19_sizes).1 (by decide),
   (get_genome_table_roundtrip hg38_sizes).2.1 (by decide),
   (get_genome_table_roundtrip t2t_sizes).2.2 (by decide)⟩

/-- C2: a mapping that is empty, or that differs from every one of the three
reference tables in at least one respect (a missing key, an extra key, or one
differing length string), is matched to the empty build name. -/
theorem get_genome_no_match (sizes : Dict)
    (h : sizes = [] ∨
      (DiffersFrom sizes hg19_sizes ∧ DiffersFrom sizes hg38_sizes ∧
       DiffersFrom sizes t2t_sizes)) :
    get_genome sizes = "" := by
  rcases h with he | ⟨h1, h2, h3⟩
  · subst he
    rfl
  · simp [get_genome, CHROMOSOME_SIZES, get_genome_loop,
      dictEq_eq_false_of_differs h1, dictEq_eq_false_of_differs h2,
      dictEq_eq_false_of_differs h3]

/-- The hg19 table with chr1 lengthened by one fails to match any build. -/
theorem get_genome_no_match_witness :
    get_genome (dictInsert hg19_sizes "chr1" "249250622") = "" :=
  get_genome_no_match _ (Or.inr
    ⟨Or.inr (Or.inr ⟨"chr1", "249250622", "249250621",
        by decide, by decide, by decide⟩),
     Or.inr (Or.inr ⟨"chr1", "249250622", "248956422",
        by decide, by decide, by decide⟩),
     Or.inr (Or.inl ⟨"chr1", by decide, by decide⟩)⟩)

/-! ## Claims about the Compatibility Checker -/

/-- C3: for every value of the STR flag, `check_genome` on the empty build
name reports a bad genome together with the generic diagnostic, which states
that the genome is not one of the three supported builds and points to the
README section on non-human genomes. -/
theorem check_genome_empty_build (str_flag : Bool) :
    check_genome "" str_flag = (true, generic_msg) ∧
    strContains generic_msg
      "it does not appear to be hg19/GRCh37, hg38/GRCh38 or T2TCHM13v2" ∧
    strContains generic_msg
      "consult the \x27Genome compatibility and running the workflow on\nnon-human genomes\x27 section of the README" := by
  refine ⟨rfl, ⟨?_, ?_, ?_⟩, ⟨?_, ?_, ?_⟩⟩
  · exact "#####################################################################\n# INPUT DATA PROBLEM\nThe genome build detected in the BAM is not compatible with this\nworkflow as "
  · exact ".\nIf you are trying to run this workflow with non-human data, please\nconsult the \x27Genome compatibility and running the workflow on\nnon-human genomes\x27 section of the README.\n####################################################################\n"
  · simp [generic_msg, String.append_assoc]
  · exact "#####################################################################\n# INPUT DATA PROBLEM\nThe genome build detected in the BAM is not compatible with this\nworkflow as it does not appear to be hg19/GRCh37, hg38/GRCh38 or T2TCHM13v2.\nIf you are trying to run this workflow with non-human data, please\n"
  · exact ".\n####################################################################\n"
  · simp [generic_msg, String.append_assoc]

/-- C4: for every nonempty build other than hg38 with the STR flag set,
`check_genome` reports a bad genome with a message that names the detected
build, says STR genotyping needs build 38, carries the hg38 download URL, and
offers disabling STR calling. -/
theorem check_genome_str_wrong_build (g : String) (h1 : g ≠ "")
    (h2 : g ≠ "hg38") :
    (check_genome g true).1 = true ∧
    strContains (check_genome g true).2 g ∧
    strContains (check_genome g true).2
      "genotyping STRs can only be\nperformed when aligned to build 38" ∧
    strContains (check_genome g true).2 HG38_URL ∧
    strContains (check_genome g true).2
      "disable STR calling by setting --str false" := by
  have hc : check_genome g true = (true, str_msg g) := by
    unfold check_genome
    rw [if_neg h1, if_pos ⟨rfl, h2⟩]
  rw [hc]
  refine ⟨rfl, ?_, ?_, ?_, ?_⟩
  · exact ⟨str_msg_a, str_msg_b ++ HG38_URL ++ str_msg_c,
      by simp [str_msg, str_msg_a, str_msg_b, str_msg_c, HG38_URL,
           String.append_assoc]⟩
  · exact ⟨str_msg_a ++ g ++ ", but ",
      ".\nTo perform STR calling, you need to run the workflow providing the\nfollowing reference genome to the --ref parameter:\n\n" ++ HG38_URL ++ str_msg_c,
      by simp [str_msg, str_msg_a, str_msg_b, str_msg_c, HG38_URL,
           String.append_assoc]⟩
  · exact ⟨str_msg_a ++ g ++ str_msg_b, str_msg_c,
      by simp [str_msg, str_msg_a, str_msg_b, str_msg_c, HG38_URL,
           String.append_assoc]⟩
  · exact ⟨str_msg_a ++ g ++ str_msg_b ++ HG38_URL ++ "\n\nAlternatively, ",
      ".\n####################################################################\n",
      by simp [str_msg, str_msg_a, str_msg_b, str_msg_c, HG38_URL,
           String.append_assoc]⟩

/-- Instance of C4 at the detected build hg19. -/
theorem check_genome_str_wrong_build_witness :
    (check_genome "hg19" true).1 = true ∧
    strContains (check_genome "hg19" true).2 "hg19" ∧
    strContains (check_genome "hg19" true).2
      "genotyping STRs can only be\nperformed when aligned to build 38" ∧
    strContains (check_genome "hg19" true).2 HG38_URL ∧
    strContains (check_genome "hg19" true).2
      "disable STR calling by setting --str false" :=
  check_genome_str_wrong_build "hg19" (by decide) (by decide)

/-- C5: for every nonempty build, if the STR flag is unset or the build is
hg38, the verdict of `check_genome` is good (`bad_genome = false`). -/
theorem check_genome_good (g : String) (b : Bool) (h1 : g ≠ "")
    (h2 : b = false ∨ g = "hg38") :
    (check_genome g b).1 = false := by
  rcases h2 with hb | hg
  · subst hb
    simp [check_genome, h1]
  · subst hg
    simp [check_genome]

/-- Instance of C5 at build hg38 with the STR flag set. -/
theorem check_genome_good_witness : (check_genome "hg38" true).1 = false :=
  check_genome_good "hg38" true (by decide) (Or.inr rfl)

/-! ## Further loop lemmas -/

/-- One successful step unfolds the loop. -/
theorem aux_cons_ok {acc acc2 : Dict} {l : String} {ls : List String}
    (h : chromosome_sizes_step acc l = .ok acc2) :
    chromosome_sizes_aux acc (l :: ls) = chromosome_sizes_aux acc2 ls := by
  simp [chromosome_sizes_aux, h]

/-- A failing step aborts the loop. -/
theorem aux_cons_err {acc : Dict} {l : String} {ls : List String} {e : String}
    (h : chromosome_sizes_step acc l = .error e) :
    chromosome_sizes_aux acc (l :: ls) = .error e := by
  simp [chromosome_sizes_aux, h]

/-- A run over an appended list splits into two successful halves. -/
theorem aux_ok_split {xs ys : List String} {acc sizes : Dict}
    (h : chromosome_sizes_aux acc (xs ++ ys) = .ok sizes) :
    ∃ mid : Dict, chromosome_sizes_aux acc xs = .ok mid ∧
      chromosome_sizes_aux mid ys = .ok sizes := by
  rw [aux_append] at h
  cases hx : chromosome_sizes_aux acc xs with
  | error e =>
      rw [hx] at h
      simp at h
  | ok mid =>
      rw [hx] at h
      exact ⟨mid, rfl, h⟩

/-! ## Claim about main -/

/-- C6: for every run of main whose size extraction succeeds: if the
compatibility verdict is bad, the diagnostic message goes to standard error,
the exit status is 65 (POSIX data error) and the output file is not written;
if the verdict is good, exactly the detected genome-build string is written
to the output file and the run terminates normally with exit 0. -/
theorem main_run_spec (lines : List String) (b : Bool) (sizes : Dict)
    (hs : chromosome_sizes lines = .ok sizes) :
    (∀ msg, check_genome (get_genome sizes) b = (true, msg) →
        main_run lines b = .ok ⟨msg, EX_DATAERR, none⟩) ∧
    (∀ msg, check_genome (get_genome sizes) b = (false, msg) →
        main_run lines b = .ok ⟨"", 0, some (get_genome sizes)⟩) := by
  constructor
  · intro msg hm
    unfold main_run
    rw [hs]
    simp [hm]
  · intro msg hm
    unfold main_run
    rw [hs]
    simp [hm]

/-- The 24 input lines carrying exactly the hg19 names and lengths. -/
def hg19Lines : List String :=
  hg19_sizes.map (fun p => p.1 ++ "\t" ++ p.2)

/-- Instances of C6: the empty listing takes the failure path (generic
diagnostic on stderr, exit 65, no output file); the exact hg19 listing takes
the success path (build written, exit 0). -/
theorem main_run_spec_witness :
    main_run [] false = .ok ⟨generic_msg, EX_DATAERR, none⟩ ∧
    main_run hg19Lines false = .ok ⟨"", 0, some (get_genome hg19_sizes)⟩ :=
  ⟨(main_run_spec [] false [] rfl).1 generic_msg rfl,
   (main_run_spec hg19Lines false hg19_sizes (by rfl)).2 generic_msg (by rfl)⟩

/-! ## Claims about the Size Extractor -/

/-- Invariant of the extractor loop started from an arbitrary accumulator:
keys of the result are the keys of the accumulator plus the kept first
columns of the lines, and every value comes from the accumulator or from some
line's second column. -/
theorem chromosome_sizes_aux_spec (lines : List String) :
    ∀ acc sizes : Dict, chromosome_sizes_aux acc lines = .ok sizes →
    ∀ name : String,
      (name ∈ dictKeys sizes ↔
        name ∈ dictKeys acc ∨
          ((∃ l ∈ lines, firstCol l = name) ∧ KeepName name)) ∧
      (∀ v, dictFind sizes name = some v →
        dictFind acc name = some v ∨
          ∃ l ∈ lines, firstCol l = name ∧ secondCol l = some v) := by
  induction lines with
  | nil =>
      intro acc sizes h name
      obtain rfl : acc = sizes := by
        simpa [chromosome_sizes_aux] using h
      exact ⟨by simp, fun v hv => Or.inl hv⟩
  | cons l ls ih =>
      intro acc sizes h name
      by_cases hk : KeepName (firstCol l)
      · cases h2 : secondCol l with
        | none =>
            rw [aux_cons_err (step_of_keep_none hk h2)] at h
            simp at h
        | some c1 =>
            rw [aux_cons_ok (step_of_keep hk h2)] at h
            obtain ⟨hmem, hval⟩ := ih (dictInsert acc (firstCol l) c1) sizes h name
            constructor
            · rw [hmem, mem_dictKeys_insert]
              constructor
              · rintro ((rfl | hacc) | ⟨⟨x, hx, hxn⟩, hkn⟩)
                · exact Or.inr ⟨⟨l, by simp, rfl⟩, hk⟩
                · exact Or.inl hacc
                · exact Or.inr ⟨⟨x, by simp [hx], hxn⟩, hkn⟩
              · rintro (hacc | ⟨⟨x, hx, hxn⟩, hkn⟩)
                · exact Or.inl (Or.inr hacc)
                · rcases List.mem_cons.mp hx with rfl | hx2
                  · exact Or.inl (Or.inl hxn.symm)
                  · exact Or.inr ⟨⟨x, hx2, hxn⟩, hkn⟩
            · intro v hv
              rcases hval v hv with hins | ⟨x, hx, hxn, hxv⟩
              · rw [dictFind_insert] at hins
                by_cases hnl : name = firstCol l
                · refine Or.inr ⟨l, by simp, hnl.symm, ?_⟩
                  rw [if_pos hnl] at hins
                  rw [h2, hins]
                · rw [if_neg hnl] at hins
                  exact Or.inl hins
              · exact Or.inr ⟨x, by simp [hx], hxn, hxv⟩
      · rw [aux_cons_ok (step_of_not_keep hk)] at h
        obtain ⟨hmem, hval⟩ := ih acc sizes h name
        constructor
        · rw [hmem]
          constructor
          · rintro (hacc | ⟨⟨x, hx, hxn⟩, hkn⟩)
            · exact Or.inl hacc
            · exact Or.inr ⟨⟨x, by simp [hx], hxn⟩, hkn⟩
          · rintro (hacc | ⟨⟨x, hx, hxn⟩, hkn⟩)
            · exact Or.inl hacc
            · rcases List.mem_cons.mp hx with rfl | hx2
              · exact absurd (hxn ▸ hkn) hk
              · exact Or.inr ⟨⟨x, hx2, hxn⟩, hkn⟩
        · intro v hv
          rcases hval v hv with hacc | ⟨x, hx, hxn, hxv⟩
          · exact Or.inl hacc
          · exact Or.inr ⟨x, by simp [hx], hxn, hxv⟩

/-- C7: on a successful run, a name is a key of the extracted mapping exactly
when some line's first tab-separated column equals it and it passes the
filter (allow-list member, T2T key, or "NC_" prefix); kept names are stored
unmodified and their values come from a line's second column; all other
lines are dropped. -/
theorem chromosome_sizes_filter (lines : List String) (sizes : Dict)
    (h : chromosome_sizes lines = .ok sizes) (name : String) :
    (name ∈ dictKeys sizes ↔
      (∃ l ∈ lines, firstCol l = name) ∧ KeepName name) ∧
    (∀ v, dictFind sizes name = some v →
      ∃ l ∈ lines, firstCol l = name ∧ secondCol l = some v) := by
  obtain ⟨hmem, hval⟩ := chromosome_sizes_aux_spec lines [] sizes h name
  constructor
  · simpa [dictKeys] using hmem
  · intro v hv
    rcases hval v hv with hfalse | hx
    · simp [dictFind] at hfalse
    · exact hx

/-- Instance of C7 on a listing with one kept line and one dropped line. -/
theorem chromosome_sizes_filter_witness :
    (("chr1" ∈ dictKeys [("chr1", "100")]) ↔
      ((∃ l ∈ ["chr1\t100", "junk\t9"], firstCol l = "chr1") ∧
        KeepName "chr1")) ∧
    (∀ v, dictFind [("chr1", "100")] "chr1" = some v →
      ∃ l ∈ ["chr1\t100", "junk\t9"], firstCol l = "chr1" ∧
        secondCol l = some v) :=
  chromosome_sizes_filter ["chr1\t100", "junk\t9"] [("chr1", "100")]
    (by rfl) "chr1"

/-- Lines whose first column is not `name` leave the binding of `name`
unchanged. -/
theorem aux_find_preserved (ys : List String) :
    ∀ acc sizes : Dict, ∀ name : String,
    (∀ l ∈ ys, firstCol l ≠ name) →
    chromosome_sizes_aux acc ys = .ok sizes →
    dictFind sizes name = dictFind acc name := by
  induction ys with
  | nil =>
      intro acc sizes name hn h
      obtain rfl : acc = sizes := by
        simpa [chromosome_sizes_aux] using h
      rfl
  | cons l ls ih =>
      intro acc sizes name hn h
      have hl : firstCol l ≠ name := hn l (by simp)
      by_cases hk : KeepName (firstCol l)
      · cases h2 : secondCol l with
        | none =>
            rw [aux_cons_err (step_of_keep_none hk h2)] at h
            simp at h
        | some c1 =>
            rw [aux_cons_ok (step_of_keep hk h2)] at h
            have hp := ih _ sizes name (fun x hx => hn x (by simp [hx])) h
            rw [hp, dictFind_insert, if_neg (fun hc => hl hc.symm)]
      · rw [aux_cons_ok (step_of_not_keep hk)] at h
        exact ih _ sizes name (fun x hx => hn x (by simp [hx])) h

/-- C9: when the same kept sequence name occurs on several input lines, the
extracted mapping binds it to the second column of the last such line: later
occurrences silently overwrite earlier ones. -/
theorem chromosome_sizes_last_wins (xs ys : List String) (l : String)
    (sizes : Dict) (name v : String)
    (hrun : chromosome_sizes (xs ++ l :: ys) = .ok sizes)
    (hname : firstCol l = name) (hkeep : KeepName name)
    (hv : secondCol l = some v)
    (hlast : ∀ l2 ∈ ys, firstCol l2 ≠ name) :
    dictFind sizes name = some v := by
  obtain ⟨mid, hxs, hrest⟩ := @aux_ok_split xs (l :: ys) [] sizes hrun
  have hkeepl : KeepName (firstCol l) := by
    rw [hname]
    exact hkeep
  rw [aux_cons_ok (step_of_keep hkeepl hv)] at hrest
  have hp := aux_find_preserved ys _ sizes name hlast hrest
  rw [hp, dictFind_insert, hname, if_pos rfl]

/-- Instance of C9: two lines for chr1, the later length wins. -/
theorem chromosome_sizes_last_wins_witness :
    dictFind [("chr1", "200")] "chr1" = some "200" :=
  chromosome_sizes_last_wins ["chr1\t100"] [] "chr1\t200" [("chr1", "200")]
    "chr1" "200" (by rfl) rfl (by decide) rfl (by simp)

/-- `splitTabAux` always returns at least one column. -/
theorem splitTabAux_length_pos (cs : List Char) :
    ∀ cur : List Char, 0 < (splitTabAux cs cur).length := by
  induction cs with
  | nil =>
      intro cur
      simp [splitTabAux]
  | cons c cs ih =>
      intro cur
      by_cases hc : c = '\t'
      · simp [splitTabAux, hc]
  
      · simp only [splitTabAux, if_neg hc]
        exact ih (c :: cur)

/-- `splitTabAux` returns a single column exactly when no tab remains. -/
theorem splitTabAux_length_eq_one (cs : List Char) :
    ∀ cur : List Char, ((splitTabAux cs cur).length = 1 ↔ '\t' ∉ cs) := by
  induction cs with
  | nil =>
      intro cur
      simp [splitTabAux]
  | cons c cs ih =>
      intro cur
      by_cases hc : c = '\t'
      · subst hc
        have hx : splitTabAux ('\t' :: cs) cur =
            String.mk cur.reverse :: splitTabAux cs [] := by
          simp [splitTabAux]
        rw [hx]
        simp only [List.length_cons, List.mem_cons]
        constructor
        · intro h
          exfalso
          have := splitTabAux_length_pos cs []
          omega
        · intro h
          exact absurd (Or.inl trivial) h
      · simp only [splitTabAux, if_neg hc, List.mem_cons]
        rw [ih (c :: cur)]
        constructor
        · intro h hor
          rcases hor with heq | hmem
          · exact hc heq.symm
          · exact h hmem
        · intro h hmem
          exact h (Or.inr hmem)

/-- A line has no second column exactly when, after stripping trailing
whitespace, it contains no tab character. -/
theorem secondCol_eq_none_iff (l : String) :
    secondCol l = none ↔ '\t' ∉ (rstrip l).data := by
  unfold secondCol lineCols splitTab
  rw [← splitTabAux_length_eq_one (rstrip l).data []]
  have hpos := splitTabAux_length_pos (rstrip l).data []
  rw [List.getElem?_eq_none_iff]
  omega

/-- The loop fails with IndexError exactly when some line is kept by the
filter but has no second column. -/
theorem aux_error_iff (lines : List String) :
    ∀ acc : Dict,
      (chromosome_sizes_aux acc lines = .error "IndexError" ↔
        ∃ l ∈ lines, KeepName (firstCol l) ∧ secondCol l = none) := by
  induction lines with
  | nil =>
      intro acc
      simp [chromosome_sizes_aux]
  | cons l ls ih =>
      intro acc
      by_cases hk : KeepName (firstCol l)
      · cases h2 : secondCol l with
        | none =>
            rw [aux_cons_err (step_of_keep_none hk h2)]
            exact iff_of_true rfl ⟨l, by simp, hk, h2⟩
        | some c1 =>
            rw [aux_cons_ok (step_of_keep hk h2)]
            rw [ih]
            constructor
            · rintro ⟨x, hx, hxk, hxn⟩
              exact ⟨x, by simp [hx], hxk, hxn⟩
            · rintro ⟨x, hx, hxk, hxn⟩
              rcases List.mem_cons.mp hx with rfl | hx2
              · rw [h2] at hxn
                cases hxn
              · exact ⟨x, hx2, hxk, hxn⟩
      · rw [aux_cons_ok (step_of_not_keep hk)]
        rw [ih]
        constructor
        · rintro ⟨x, hx, hxk, hxn⟩
          exact ⟨x, by simp [hx], hxk, hxn⟩
        · rintro ⟨x, hx, hxk, hxn⟩
          rcases List.mem_cons.mp hx with rfl | hx2
          · exact absurd hxk hk
          · exact ⟨x, hx2, hxk, hxn⟩

/-- C10: the extractor raises an uncaught IndexError exactly when some line
passes the filter but contains no tab after stripping trailing whitespace;
lines whose first column fails the filter never raise, whatever their column
count. -/
theorem chromosome_sizes_index_error (lines : List String) :
    chromosome_sizes lines = .error "IndexError" ↔
      ∃ l ∈ lines, KeepName (firstCol l) ∧ '\t' ∉ (rstrip l).data := by
  rw [show chromosome_sizes lines = chromosome_sizes_aux [] lines from rfl]
  rw [aux_error_iff lines []]
  constructor
  · rintro ⟨l, hl, hk, hn⟩
    exact ⟨l, hl, hk, (secondCol_eq_none_iff l).mp hn⟩
  · rintro ⟨l, hl, hk, hn⟩
    exact ⟨l, hl, hk, (secondCol_eq_none_iff l).mpr hn⟩

/-- Keys only accumulate along the loop. -/
theorem aux_keys_mono (ys : List String) :
    ∀ acc sizes : Dict, ∀ k : String,
    chromosome_sizes_aux acc ys = .ok sizes →
    k ∈ dictKeys acc → k ∈ dictKeys sizes := by
  induction ys with
  | nil =>
      intro acc sizes k h hk
      obtain rfl : acc = sizes := by
        simpa [chromosome_sizes_aux] using h
      exact hk
  | cons l ls ih =>
      intro acc sizes k h hk
      by_cases hkeep : KeepName (firstCol l)
      · cases h2 : secondCol l with
        | none =>
            rw [aux_cons_err (step_of_keep_none hkeep h2)] at h
            simp at h
        | some c1 =>
            rw [aux_cons_ok (step_of_keep hkeep h2)] at h
            exact ih _ sizes k h (mem_dictKeys_insert.mpr (Or.inr hk))
      · rw [aux_cons_ok (step_of_not_keep hkeep)] at h
        exact ih _ sizes k h hk

/-- Running the loop over lines whose names all start with "NC_" and which
all have a second column succeeds, records every such name, and leaves the
bindings of all non-"NC_" keys untouched. -/
theorem extra_lines_aux (extra : List String) :
    ∀ acc : Dict,
    (∀ l ∈ extra, py_startswith (firstCol l) "NC_" = true ∧
      secondCol l ≠ none) →
    ∃ d : Dict, chromosome_sizes_aux acc extra = .ok d ∧
      (∀ l ∈ extra, firstCol l ∈ dictKeys d) ∧
      (∀ k, py_startswith k "NC_" = false → dictFind d k = dictFind acc k) := by
  induction extra with
  | nil =>
      intro acc _
      exact ⟨acc, rfl, by simp, fun k _ => rfl⟩
  | cons l ls ih =>
      intro acc hx
      obtain ⟨hNC, hsc⟩ := hx l (by simp)
      obtain ⟨c1, hc1⟩ := Option.ne_none_iff_exists.mp hsc
      have hkeep : KeepName (firstCol l) := Or.inr (Or.inl hNC)
      obtain ⟨d, hd, hmem, hpres⟩ :=
        ih (dictInsert acc (firstCol l) c1) (fun x hxm => hx x (by simp [hxm]))
      refine ⟨d, ?_, ?_, ?_⟩
      · rw [aux_cons_ok (step_of_keep hkeep hc1.symm)]
        exact hd
      · intro x hxm
        rcases List.mem_cons.mp hxm with rfl | hx2
        · exact aux_keys_mono ls _ d (firstCol x) hd
            (mem_dictKeys_insert.mpr (Or.inl rfl))
        · exact hmem x hx2
      · intro k hk
        have hne : k ≠ firstCol l := by
          intro hcon
          rw [hcon, hNC] at hk
          cases hk
        rw [hpres k hk, dictFind_insert, if_neg hne]

/-- The 24 input lines carrying exactly the T2T names and lengths. -/
def t2tLines : List String :=
  t2t_sizes.map (fun p => p.1 ++ "\t" ++ p.2)

/-- C8: an input made of the 24 exact T2T lines plus at least one extra line
whose name begins with "NC_" but is not a T2T key parses successfully with
every extra name included in the mapping, and the permissive "NC_" filter
then makes `get_genome` return the empty string instead of "T2T". -/
theorem t2t_with_extra_nc_lines (extra : List String) (l0 : String)
    (h0 : l0 ∈ extra)
    (hx : ∀ l ∈ extra, py_startswith (firstCol l) "NC_" = true ∧
      firstCol l ∉ dictKeys t2t_sizes ∧ secondCol l ≠ none) :
    ∃ sizes : Dict, chromosome_sizes (t2tLines ++ extra) = .ok sizes ∧
      (∀ l ∈ extra, firstCol l ∈ dictKeys sizes) ∧
      get_genome sizes = "" := by
  obtain ⟨d, hd, hmem, hpres⟩ :=
    extra_lines_aux extra t2t_sizes
      (fun x hxm => ⟨(hx x hxm).1, (hx x hxm).2.2⟩)
  have hsplit : chromosome_sizes (t2tLines ++ extra) =
      chromosome_sizes_aux t2t_sizes extra := by
    show chromosome_sizes_aux [] (t2tLines ++ extra) = _
    rw [aux_append]
    rw [show chromosome_sizes_aux [] t2tLines = .ok t2t_sizes by rfl]
  refine ⟨d, hsplit.trans hd, hmem, ?_⟩
  obtain ⟨hNC0, hnotT2T0, hsc0⟩ := hx l0 h0
  have hfind0 : dictFind d (firstCol l0) ≠ none :=
    mem_dictKeys.mp (hmem l0 h0)
  have hchr1 : dictFind d "chr1" = none := by
    rw [hpres "chr1" (by decide)]
    decide
  have hne : dictIsEmpty d = false := by
    cases hd0 : d with
    | nil =>
        rw [hd0] at hfind0
        exact absurd rfl hfind0
    | cons p rest => rfl
  have h19 : dictEq d hg19_sizes = false := by
    by_contra hc
    rw [Bool.not_eq_false] at hc
    have hh := dictEq_find hc "chr1"
    rw [hchr1] at hh
    exact absurd hh.symm (by decide)
  have h38 : dictEq d hg38_sizes = false := by
    by_contra hc
    rw [Bool.not_eq_false] at hc
    have hh := dictEq_find hc "chr1"
    rw [hchr1] at hh
    exact absurd hh.symm (by decide)
  have hT2T : dictEq d t2t_sizes = false := by
    by_contra hc
    rw [Bool.not_eq_false] at hc
    have hh := dictEq_find hc (firstCol l0)
    rw [dictFind_eq_none.mpr hnotT2T0] at hh
    exact hfind0 hh
  simp [get_genome, CHROMOSOME_SIZES, get_genome_loop, hne, h19, h38, hT2T]

/-- Instance of C8: the T2T listing plus a line for the mitochondrial
accession NC_012920.1 parses but matches no build. -/
theorem t2t_with_extra_nc_lines_witness :
    ∃ sizes : Dict,
      chromosome_sizes (t2tLines ++ ["NC_012920.1\t16569"]) = .ok sizes ∧
      (∀ l ∈ ["NC_012920.1\t16569"], firstCol l ∈ dictKeys sizes) ∧
      get_genome sizes = "" :=
  t2t_with_extra_nc_lines ["NC_012920.1\t16569"] "NC_012920.1\t16569"
    (by decide) (by decide)
